import Mathlib

/-!
Verification of the peer-lobby / command-relay core of the reactnative-tr2-port
repository, shallowly embedded from the three transport hook implementations:

* `Native` models `src/hooks/useNearbyLobby.native.ts` (expo-nearby-connections
  transport): the message dispatcher (`onTextReceived`), the connection
  admission queue (`processQueue` / `addToConnectionQueue`), the mode/role
  transition effect, and the facade actions.
* `Web` models `src/hooks/useNearbyLobby.web.ts` (Firebase realtime-database
  substitute transport): the per-recipient `commands` and `settings`
  listeners, the transition effect, `leaveLobby` and `sendCommand`.
* `Fire` models `src/hooks/useFirebaseLobby.ts` (the older Firebase lobby
  hook): its command listener, `leaveLobby` and `sendCommand`.

React `useState` cells and `useRef` cells are modelled as fields of a state
record; a `setX(v)` call is a functional record update.  Asynchronous
transport primitives (`sendText`, `push`, `set`, `requestConnection`) are
modelled by a success predicate `ok : String -> Bool` on the peer/write id,
and the externally visible effect of a send is recorded as the list of peer
ids to which a write was issued.  Wall-clock milliseconds (`Date.now()`) are
modelled as `Int`.
-/

/-- Roles a device can take (`Role` in `src/types` / `useFirebaseLobby.ts`). -/
inductive Role where
  | display
  | controller
  | idle
deriving DecidableEq, Repr

/-- The `remoteMode` state cell of every hook variant. -/
inductive RemoteMode where
  | none
  | lobby
  | controller
  | display
deriving DecidableEq, Repr

/-- The phase component of `GameStateData`. -/
inductive GamePhase where
  | LOBBY
  | RUNNING
deriving DecidableEq, Repr

/-- The optional game component of `GameStateData`. -/
inductive GameKind where
  | colors
  | chainCalc
deriving DecidableEq, Repr

/-- `GameStateData` from `src/types`: `{state: 'LOBBY'|'RUNNING', game?}`. -/
structure GameStateData where
  state : GamePhase
  game : Option GameKind
deriving DecidableEq, Repr

/-- A device entry of the `devices` state list (`LobbyDevice`). -/
structure LobbyDevice where
  id : String
  client_id : String
  name : String
  role : Role
  lastSeen : Int
deriving DecidableEq, Repr

/-- The `{code, message}` error record (`NearbyLobbyError` / `FirebaseError`). -/
structure LobbyError where
  code : String
  message : String
deriving DecidableEq, Repr

/-- A command record `{name, class, timestamp}` as stored in `lastCommand`
and written by `sendCommand` (the JS field `class` is `cls` here, `class`
being reserved). -/
structure Command where
  name : String
  cls : String
  timestamp : Int
deriving DecidableEq, Repr

/-- The `backToWhiteSettings` state cell `{enabled, duration}`. -/
structure BackToWhiteSettings where
  enabled : Bool
  duration : Int
deriving DecidableEq, Repr

/-!
A small JSON value model for the native dispatcher, which parses the raw
wire text with `JSON.parse` and then branches on the dynamic fields of the
resulting object.  Objects are association lists with unique keys (as
produced by `JSON.parse`, which keeps one binding per key).
-/

/-- JSON values as produced by `JSON.parse` on the wire text. -/
inductive Json where
  | null
  | bool (b : Bool)
  | num (n : Int)
  | str (s : String)
  | arr (elems : List Json)
  | obj (fields : List (String × Json))
deriving Repr

/-- Property access `j.k` on a parsed JSON value: a key lookup on objects,
`none` (JS `undefined`) on everything else.  (Access on `null` throws in JS,
but every such access in the dispatcher sits inside its `try` block, so the
observable result — the handler falls through — matches `none` here.) -/
def Json.get (j : Json) (key : String) : Option Json :=
  match j with
  | .obj fields => fields.lookup key
  | _ => Option.none

/-- JS falsiness of a parsed JSON value (`NaN` does not arise: numbers are
modelled as integers). -/
def Json.falsy : Json → Bool
  | .null => true
  | .bool b => !b
  | .num n => n == 0
  | .str s => s == ""
  | .arr _ => false
  | .obj _ => false

/-- JS `a || b` for a possibly-absent value `a`: yields `b` when `a` is
absent or falsy. -/
def jsOr (v : Option Json) (d : Json) : Json :=
  match v with
  | Option.none => d
  | Option.some x => if x.falsy then d else x

/-- JS nullish coalescing `a ?? b` for a possibly-absent value `a`: yields
`b` exactly when `a` is absent (`undefined`) or `null`. -/
def nullish (v : Option Json) (d : Json) : Json :=
  match v with
  | Option.none => d
  | Option.some Json.null => d
  | Option.some x => x

/-- Whether a JSON value is exactly the string `s` (JS `v === 's'`). -/
def Json.isStr (j : Json) (s : String) : Bool :=
  match j with
  | .str t => t == s
  | _ => false

/-- Whether `payload.type === t` for a parsed payload. -/
def typeIs (payload : Json) (t : String) : Bool :=
  match payload.get "type" with
  | Option.some v => v.isStr t
  | Option.none => false

/-- JS `v > bound` where `v` is a possibly-absent dynamic value and `bound`
a number: true only when `v` is a number greater than `bound` (an absent or
non-numeric `v` yields `NaN`-style false; wall clocks make the exotic
null/boolean coercions unreachable for the 10-second bound). -/
def jsGtNum : Option Json → Int → Bool
  | Option.some (Json.num n), bound => bound < n
  | _, _ => false

namespace Native

/-- A `devices` entry as built by the native dispatcher, which stores the
raw payload fields (`payload.name`, `payload.role` may be any JSON value or
absent). -/
structure JDevice where
  id : String
  client_id : Json
  name : Option Json
  role : Option Json
  lastSeen : Int
deriving Repr

/-- The state cells touched by the native `onTextReceived` dispatcher
(`useNearbyLobby.native.ts` lines 227-271).  `lastCommand` stores the whole
parsed payload (the code calls `setLastCommand(payload)`), `gameState`
stores the raw `payload.state`, and the two `backToWhite` fields store the
raw results of the two `??` defaults. -/
structure DispatchState where
  devices : List JDevice
  gameState : Option Json
  lastCommand : Option Json
  btwEnabled : Json
  btwDuration : Json
deriving Repr

/-- The `device_info` branch of the dispatcher: upsert keyed on the
transport peer id (`data.peerId`). -/
def upsertDeviceInfo (now : Int) (peerId : String) (payload : Json)
    (devices : List JDevice) : List JDevice :=
  if devices.any (fun d => d.id == peerId) then
    devices.map (fun d =>
      if d.id == peerId then
        { d with
          role := payload.get "role"
          name := payload.get "name"
          client_id := jsOr (payload.get "id") d.client_id }
      else d)
  else
    devices ++ [{ id := peerId
                  client_id := jsOr (payload.get "id") (Json.str peerId)
                  name := payload.get "name"
                  role := payload.get "role"
                  lastSeen := now }]

/-- The native `onTextReceived` handler.  `parsed` is the result of
`JSON.parse(data.text)`: `none` when the parse threw (the surrounding
`try`/`catch` logs and leaves all state unchanged).  Branches exactly as
the source: `device_info`, `command` (10-second staleness window),
`game_state`, `settings`, otherwise fall through. -/
def onTextReceived (now : Int) (peerId : String) (parsed : Option Json)
    (s : DispatchState) : DispatchState :=
  match parsed with
  | Option.none => s
  | Option.some payload =>
    if typeIs payload "device_info" then
      { s with devices := upsertDeviceInfo now peerId payload s.devices }
    else if typeIs payload "command" then
      if jsGtNum (payload.get "timestamp") (now - 10000) then
        { s with lastCommand := Option.some payload }
      else s
    else if typeIs payload "game_state" then
      { s with gameState := payload.get "state" }
    else if typeIs payload "settings" then
      { s with
        btwEnabled := nullish (payload.get "backToWhite") (Json.bool false)
        btwDuration := nullish (payload.get "duration") (Json.num 2) }
    else s

/-- The hook-level state of `useNearbyLobby.native.ts`: the `useState` cells
plus the `useRef` cells (`connectedPeers`, `connectingPeers`,
`connectionQueue`, `isProcessingQueue`, `activeState`).  The
`discoveredPeers` name map is omitted: the source consults it only to build
log strings. -/
structure HookState where
  devices : List LobbyDevice
  myRole : Role
  remoteMode : RemoteMode
  gameState : GameStateData
  lastCommand : Option Command
  isLoading : Bool
  error : Option LobbyError
  backToWhite : BackToWhiteSettings
  connectedPeers : List String
  connectingPeers : List String
  connectionQueue : List String
  isProcessingQueue : Bool
  activeMode : RemoteMode
  activeRole : Role
deriving DecidableEq, Repr

/-- The initial hook state (the `useState` initialisers and the initial
`useRef` values). -/
def initialState : HookState :=
  { devices := []
    myRole := Role.idle
    remoteMode := RemoteMode.none
    gameState := { state := GamePhase.LOBBY, game := Option.none }
    lastCommand := Option.none
    isLoading := false
    error := Option.none
    backToWhite := { enabled := false, duration := 2 }
    connectedPeers := []
    connectingPeers := []
    connectionQueue := []
    isProcessingQueue := false
    activeMode := RemoteMode.none
    activeRole := Role.idle }

/-- JS `Set.add`: append the element unless already present. -/
def addPeer (p : String) (ps : List String) : List String :=
  if p ∈ ps then ps else ps ++ [p]

/-- Outcome of the async `startNearby` sequence inside the transition
effect: the permission request fails, the transport start throws with some
message, or everything succeeds. -/
inductive StartOutcome where
  | ok
  | permissionDenied
  | startFailed (msg : String)
deriving DecidableEq, Repr

/-- The native mode/role transition effect (`useNearbyLobby.native.ts`
lines 99-154).  It compares `(remoteMode, myRole)` against the
previously-applied `activeState`; on a change it records the new pair and
either — new mode `none` — stops the radio and clears the peer sets, the
queue and the device list, or — any other pair — runs `startNearby`
(permissions, stop advertise/discovery, settling delay, start advertise or
discovery per role), which touches only `isLoading` and `error`. -/
def transitionEffect (outcome : StartOutcome) (s : HookState) : HookState :=
  if s.remoteMode = s.activeMode ∧ s.myRole = s.activeRole then s
  else
    let s1 := { s with activeMode := s.remoteMode, activeRole := s.myRole }
    if s1.remoteMode = RemoteMode.none then
      { s1 with
        connectedPeers := []
        connectingPeers := []
        connectionQueue := []
        devices := [] }
    else
      match outcome with
      | StartOutcome.permissionDenied =>
        { s1 with
          isLoading := false
          error := Option.some
            { code := "PERMISSION_DENIED"
              message := "Nearby Connections requires Bluetooth and Location permissions." } }
      | StartOutcome.startFailed msg =>
        { s1 with
          isLoading := false
          error := Option.some { code := "START_FAILED", message := msg } }
      | StartOutcome.ok =>
        { s1 with isLoading := false, error := Option.none }

/-- Facade action `joinLobby` (`setRemoteMode('lobby')`). -/
def joinLobby (s : HookState) : HookState :=
  { s with remoteMode := RemoteMode.lobby }

/-- Facade action `setMyRole`. -/
def setRole (r : Role) (s : HookState) : HookState :=
  { s with myRole := r }

/-- Facade action `leaveLobby` (`useNearbyLobby.native.ts` lines 274-281):
sets mode `none`, role `idle`, stops the radio, clears `connectedPeers` and
the device list. -/
def leaveLobby (s : HookState) : HookState :=
  { s with
    remoteMode := RemoteMode.none
    myRole := Role.idle
    connectedPeers := []
    devices := [] }

/-- Transport `onConnected` handler (lines 185-212, subscribed only while
`remoteMode` is not `none`): add the peer to `connectedPeers`, drop it from
`connectingPeers`, and append a device entry with role `idle` unless one
with the same id already exists; it then sends the own `device_info`
handshake (a fire-and-forget send with a logging catch, no state change). -/
def onConnected (now : Int) (peerId peerName : String) (s : HookState) : HookState :=
  if s.remoteMode = RemoteMode.none then s
  else
    let s1 := { s with
      connectedPeers := addPeer peerId s.connectedPeers
      connectingPeers := s.connectingPeers.erase peerId }
    { s1 with devices :=
        if s1.devices.any (fun d => d.id == peerId) then s1.devices
        else s1.devices ++ [{ id := peerId
                              client_id := peerId
                              name := peerName
                              role := Role.idle
                              lastSeen := now }] }

/-- Facade action `sendCommand` (lines 303-322).  The command is stamped
with `timestamp = now` and serialised once; each `sendText` failure is
caught per peer and only logged, so the hook state is returned unchanged
whatever the per-peer outcomes, and the per-peer catches never block the
remaining sends.  The second component lists the sends that are issued: one
to the target if given, else one per connected peer. -/
def sendCommand (now : Int) (name cls : String)
    (targetId : Option String) (s : HookState) : HookState × List (String × Command) :=
  let cmd : Command := { name := name, cls := cls, timestamp := now }
  match targetId with
  | Option.some t => (s, [(t, cmd)])
  | Option.none => (s, s.connectedPeers.map (fun p => (p, cmd)))

/-!
The Connection Admission Queue (`processQueue` / `addToConnectionQueue`,
lines 66-95).  The drain step runs synchronously up to the awaited
`requestConnection`; once that request settles (after `dur peerId`
milliseconds, throwing iff `ok peerId` is false) a 1.5-second `setTimeout`
is scheduled whose callback clears `isProcessingQueue` and re-enters
`processQueue`.  `timer` holds the absolute firing time of that pending
callback and `requests` logs each issued connection request with the time
it was issued at.
-/

/-- State of the admission queue together with its drain-callback timer and
the log of issued connection requests. -/
structure QueueState where
  connectedPeers : List String
  connectingPeers : List String
  connectionQueue : List String
  isProcessingQueue : Bool
  timer : Option Nat
  requests : List (String × Nat)
deriving DecidableEq, Repr

/-- The empty queue state. -/
def emptyQueue : QueueState :=
  { connectedPeers := []
    connectingPeers := []
    connectionQueue := []
    isProcessingQueue := false
    timer := Option.none
    requests := [] }

/-- One entry of `processQueue` at time `now`: return immediately when a
drain is already running or the queue is empty; otherwise mark the drain
running, shift the head peer, issue `requestConnection` to it unless it is
already connected (on a thrown request the peer leaves `connectingPeers`),
and schedule the cooldown callback 1500 ms after the request settles. -/
def processQueue (dur : String → Nat) (ok : String → Bool) (now : Nat)
    (s : QueueState) : QueueState :=
  if s.isProcessingQueue then s
  else
    match s.connectionQueue with
    | [] => s
    | peerId :: rest =>
      let s1 := { s with isProcessingQueue := true, connectionQueue := rest }
      if peerId ∈ s1.connectedPeers then
        { s1 with timer := Option.some (now + 1500) }
      else
        let s2 := { s1 with requests := s1.requests ++ [(peerId, now)] }
        let s3 :=
          if ok peerId then s2
          else { s2 with connectingPeers := s2.connectingPeers.erase peerId }
        { s3 with timer := Option.some (now + dur peerId + 1500) }

/-- `addToConnectionQueue` at time `now`: drop the offer when the peer is
already connected or mid-connection, otherwise mark it connecting, enqueue
it, and kick `processQueue`. -/
def addToConnectionQueue (dur : String → Nat) (ok : String → Bool) (now : Nat)
    (peerId : String) (s : QueueState) : QueueState :=
  if peerId ∈ s.connectedPeers ∨ peerId ∈ s.connectingPeers then s
  else
    processQueue dur ok now
      { s with
        connectingPeers := addPeer peerId s.connectingPeers
        connectionQueue := s.connectionQueue ++ [peerId] }

/-- Fire the pending cooldown callback (if any): clear `isProcessingQueue`
and re-enter `processQueue` at the callback's firing time. -/
def fireTimer (dur : String → Nat) (ok : String → Bool) (s : QueueState) : QueueState :=
  match s.timer with
  | Option.none => s
  | Option.some t =>
    processQueue dur ok t { s with isProcessingQueue := false, timer := Option.none }

/-- Offer a batch of peer ids in one event-loop turn (N simultaneous
`onPeerFound` events at time `now`). -/
def offerAll (dur : String → Nat) (ok : String → Bool) (now : Nat)
    (ps : List String) (s : QueueState) : QueueState :=
  ps.foldl (fun acc p => addToConnectionQueue dur ok now p acc) s

/-- Run `k` successive cooldown callbacks. -/
def drain (dur : String → Nat) (ok : String → Bool) : Nat → QueueState → QueueState
  | 0, s => s
  | k + 1, s => drain dur ok k (fireTimer dur ok s)

/-- The issue times the drain loop produces for a queue of peers starting
at time `t`: each request is issued 1500 ms after the previous one settles. -/
def drainTimes (dur : String → Nat) (t : Nat) : List String → List (String × Nat)
  | [] => []
  | p :: rest => (p, t) :: drainTimes dur (t + dur p + 1500) rest

end Native

namespace Web

/-- The hook-level state of `useNearbyLobby.web.ts`: the `useState` cells
plus the `activeState` and `isConnected` refs.  The Firebase listener refs
are connection handles, not observable protocol state, and are represented
only through the effects that (un)register them. -/
structure HookState where
  devices : List LobbyDevice
  myRole : Role
  remoteMode : RemoteMode
  gameState : GameStateData
  lastCommand : Option Command
  error : Option LobbyError
  backToWhite : BackToWhiteSettings
  isConnected : Bool
  activeMode : RemoteMode
  activeRole : Role
deriving DecidableEq, Repr

/-- The web mode/role transition effect (`useNearbyLobby.web.ts` lines
319-341): on a pair change, unregister the previous listeners, record the
new pair, and — when the new mode is `none` or the new role `idle` — clear
the device list and the connected flag; otherwise set up display presence
or controller discovery (listener registration, no state-cell change). -/
def transitionEffect (s : HookState) : HookState :=
  if s.remoteMode = s.activeMode ∧ s.myRole = s.activeRole then s
  else
    let s1 := { s with activeMode := s.remoteMode, activeRole := s.myRole }
    if s1.remoteMode = RemoteMode.none ∨ s1.myRole = Role.idle then
      { s1 with devices := [], isConnected := false }
    else s1

/-- Facade action `joinLobby` (`setRemoteMode('lobby')`). -/
def joinLobby (s : HookState) : HookState :=
  { s with remoteMode := RemoteMode.lobby }

/-- Facade action `leaveLobby` (lines 364-383): mode `none`, role `idle`,
unregister listeners, delete the own presence record (fire-and-forget),
clear the device list and the connected flag. -/
def leaveLobby (s : HookState) : HookState :=
  { s with
    remoteMode := RemoteMode.none
    myRole := Role.idle
    devices := []
    isConnected := false }

/-- Insert a command into a list sorted by descending timestamp, before the
first strictly-older entry (the stable behaviour of the source's
`sort((a, b) => b.timestamp - a.timestamp)`). -/
def insertDesc (c : Command) : List Command → List Command
  | [] => [c]
  | d :: rest =>
    if d.timestamp < c.timestamp then c :: d :: rest
    else d :: insertDesc c rest

/-- Stable sort by descending timestamp. -/
def sortDesc : List Command → List Command
  | [] => []
  | c :: rest => insertDesc c (sortDesc rest)

/-- The per-recipient `commands` listener (lines 204-222).  `data` is the
snapshot of the recipient's `commands` sub-path: `none` when the path is
empty, otherwise the pending command messages (`Object.values`).  The
handler keeps the commands newer than 10 seconds, sorts them by descending
timestamp, and applies the head if one exists; otherwise `lastCommand` is
left as it was. -/
def commandsListener (now : Int) (data : Option (List Command))
    (last : Option Command) : Option Command :=
  match data with
  | Option.none => last
  | Option.some cmds =>
    match sortDesc (cmds.filter (fun c => now - 10000 < c.timestamp)) with
    | [] => last
    | c :: _ => Option.some { name := c.name, cls := c.cls, timestamp := c.timestamp }

/-- A snapshot of the per-recipient `settings` sub-path: the fields of the
stored settings message, each possibly absent. -/
structure SettingsSnap where
  backToWhite : Option Bool
  duration : Option Int
deriving DecidableEq, Repr

/-- The per-recipient `settings` listener (lines 225-234): ignore an empty
snapshot, otherwise replace `backToWhiteSettings` with the defaulted
fields (`backToWhite ?? false`, `duration ?? 2`). -/
def settingsListener (data : Option SettingsSnap)
    (prev : BackToWhiteSettings) : BackToWhiteSettings :=
  match data with
  | Option.none => prev
  | Option.some d =>
    { enabled := d.backToWhite.getD false, duration := d.duration.getD 2 }

/-- Facade action `sendCommand` (lines 423-458).  With a target, one write
is pushed to the target's `commands` path; without one, a write per known
device is pushed through `Promise.all` — every write is initiated before
any rejection is observed, so a failing write never prevents the others.
The surrounding catch, however, promotes any rejection to the user-visible
`error` field (`SEND_COMMAND_FAILED`, with the thrown message defaulted to
the literal fallback).  `ok` gives the per-write outcome; the second
component lists the recipients written to. -/
def sendCommand (ok : String → Bool) (now : Int) (name cls : String)
    (targetId : Option String) (s : HookState) : HookState × List (String × Command) :=
  let cmd : Command := { name := name, cls := cls, timestamp := now }
  let failed : LobbyError :=
    { code := "SEND_COMMAND_FAILED", message := "Failed to send command" }
  match targetId with
  | Option.some t =>
    (if ok t then s else { s with error := Option.some failed }, [(t, cmd)])
  | Option.none =>
    if s.devices = [] then (s, [])
    else
      let ids := s.devices.map (fun d => d.id)
      (if ids.all ok then s else { s with error := Option.some failed },
       ids.map (fun p => (p, cmd)))

end Web

namespace Fire

/-- The hook-level state of `useFirebaseLobby.ts`. -/
structure HookState where
  devices : List LobbyDevice
  myRole : Role
  remoteMode : RemoteMode
  gameState : GameStateData
  lastCommand : Option Command
  isLoading : Bool
  error : Option LobbyError
deriving DecidableEq, Repr

/-- The `commands/{deviceId}` listener (`useFirebaseLobby.ts` lines
188-218): apply the snapshot as `lastCommand` only when it is present and
its `timestamp` is newer than 5 seconds, then `clearError()`
unconditionally. -/
def commandListener (now : Int) (data : Option Command) (s : HookState) : HookState :=
  let s1 :=
    match data with
    | Option.some d =>
      if now - 5000 < d.timestamp then { s with lastCommand := Option.some d } else s
    | Option.none => s
  { s1 with error := Option.none }

/-- Facade action `joinLobby`. -/
def joinLobby (s : HookState) : HookState :=
  { s with remoteMode := RemoteMode.lobby }

/-- Facade action `leaveLobby` (lines 223-226): it only sets
`remoteMode = 'none'` and `myRole = 'idle'`; the device-list listener is
then unsubscribed by its effect, so the `devices` cell keeps its last
value. -/
def leaveLobby (s : HookState) : HookState :=
  { s with remoteMode := RemoteMode.none, myRole := Role.idle }

/-- Facade action `sendCommand` (lines 264-289).  With a target, one write;
its failure is promoted to the `error` field (the thrown code/message
defaulted to the literal fallbacks).  Without a target, one write per known
`display` device, each with its own catch that only logs.  The second
component lists the recipients written to. -/
def sendCommand (ok : String → Bool) (now : Int) (name cls : String)
    (targetId : Option String) (s : HookState) : HookState × List (String × Command) :=
  let cmd : Command := { name := name, cls := cls, timestamp := now }
  let failed : LobbyError :=
    { code := "SEND_FAILED", message := "Failed to send command" }
  match targetId with
  | Option.some t =>
    (if ok t then s else { s with error := Option.some failed }, [(t, cmd)])
  | Option.none =>
    let displays := s.devices.filter (fun d => d.role == Role.display)
    (s, displays.map (fun d => (d.id, cmd)))

end Fire

/-- C10: leaving the lobby (the `leaveLobby` action followed by the
re-run of the mode/role transition effect it triggers) retains the prior
`gameState`, `lastCommand` and `backToWhiteSettings` in both the native and
web transport variants; only `remoteMode`, `myRole`, the devices list and
the transport bookkeeping change. -/
theorem C10_leave_frame (outcome : Native.StartOutcome)
    (s : Native.HookState) (w : Web.HookState) :
    ((Native.transitionEffect outcome (Native.leaveLobby s)).gameState = s.gameState
      ∧ (Native.transitionEffect outcome (Native.leaveLobby s)).lastCommand = s.lastCommand
      ∧ (Native.transitionEffect outcome (Native.leaveLobby s)).backToWhite = s.backToWhite)
    ∧ ((Web.transitionEffect (Web.leaveLobby w)).gameState = w.gameState
      ∧ (Web.transitionEffect (Web.leaveLobby w)).lastCommand = w.lastCommand
      ∧ (Web.transitionEffect (Web.leaveLobby w)).backToWhite = w.backToWhite) := by
  unfold Native.transitionEffect Native.leaveLobby Web.transitionEffect Web.leaveLobby
  refine ⟨?_, ?_⟩ <;> split <;> simp

/-- C4 (amended): `leaveLobby()` yields `remoteMode = 'none'` and
`myRole = 'idle'` and is idempotent in every variant; the devices list is
cleared by the native and web variants, while the Firebase-lobby variant
leaves its `devices` cell untouched. -/
theorem C4_leave_lobby (s : Native.HookState) (w : Web.HookState) (f : Fire.HookState) :
    ((Native.leaveLobby s).remoteMode = RemoteMode.none
      ∧ (Native.leaveLobby s).myRole = Role.idle
      ∧ (Native.leaveLobby s).devices = []
      ∧ Native.leaveLobby (Native.leaveLobby s) = Native.leaveLobby s)
    ∧ ((Web.leaveLobby w).remoteMode = RemoteMode.none
      ∧ (Web.leaveLobby w).myRole = Role.idle
      ∧ (Web.leaveLobby w).devices = []
      ∧ Web.leaveLobby (Web.leaveLobby w) = Web.leaveLobby w)
    ∧ ((Fire.leaveLobby f).remoteMode = RemoteMode.none
      ∧ (Fire.leaveLobby f).myRole = Role.idle
      ∧ (Fire.leaveLobby f).devices = f.devices
      ∧ Fire.leaveLobby (Fire.leaveLobby f) = Fire.leaveLobby f) := by
  refine ⟨⟨rfl, rfl, rfl, rfl⟩, ⟨rfl, rfl, rfl, rfl⟩, ⟨rfl, rfl, rfl, rfl⟩⟩

/-- C4 counterexample: in the Firebase-lobby variant, calling
`leaveLobby()` with three known devices sets mode `none` and role `idle`
but keeps all three entries in `devices`, so the claimed empty devices list
is false for that transport. -/
theorem C4_counterexample :
    (Fire.leaveLobby
        { devices :=
            [{ id := "d1", client_id := "d1", name := "A", role := Role.display, lastSeen := 0 },
             { id := "d2", client_id := "d2", name := "B", role := Role.display, lastSeen := 0 },
             { id := "d3", client_id := "d3", name := "C", role := Role.display, lastSeen := 0 }]
          myRole := Role.controller
          remoteMode := RemoteMode.controller
          gameState := { state := GamePhase.LOBBY, game := Option.none }
          lastCommand := Option.none
          isLoading := false
          error := Option.none }).remoteMode = RemoteMode.none
    ∧ (Fire.leaveLobby
        { devices :=
            [{ id := "d1", client_id := "d1", name := "A", role := Role.display, lastSeen := 0 },
             { id := "d2", client_id := "d2", name := "B", role := Role.display, lastSeen := 0 },
             { id := "d3", client_id := "d3", name := "C", role := Role.display, lastSeen := 0 }]
          myRole := Role.controller
          remoteMode := RemoteMode.controller
          gameState := { state := GamePhase.LOBBY, game := Option.none }
          lastCommand := Option.none
          isLoading := false
          error := Option.none }).devices.length = 3 := by
  exact ⟨rfl, rfl⟩

/-- C5: the native dispatcher is a total function that leaves the whole
dispatch state (devices, game state, last command, back-to-white settings)
unchanged both when `JSON.parse` fails and when the parsed payload's `type`
is none of `device_info`, `command`, `game_state`, `settings`. -/
theorem C5_malformed_dispatch_safe :
    (∀ (now : Int) (pid : String) (s : Native.DispatchState),
        Native.onTextReceived now pid Option.none s = s)
    ∧ (∀ (now : Int) (pid : String) (payload : Json) (s : Native.DispatchState),
        typeIs payload "device_info" = false →
        typeIs payload "command" = false →
        typeIs payload "game_state" = false →
        typeIs payload "settings" = false →
        Native.onTextReceived now pid (Option.some payload) s = s) := by
  constructor
  · intro now pid s
    rfl
  · intro now pid payload s h1 h2 h3 h4
    simp [Native.onTextReceived, h1, h2, h3, h4]

/-- C5 witness: a payload with the unrecognized type `ping` (and the
unparsable-text case) leave a concrete dispatch state unchanged. -/
theorem C5_malformed_dispatch_safe_witness :
    Native.onTextReceived 5 "p1"
        (Option.some (Json.obj [("type", Json.str "ping"), ("x", Json.num 1)]))
        { devices := []
          gameState := Option.none
          lastCommand := Option.none
          btwEnabled := Json.bool false
          btwDuration := Json.num 2 } =
      { devices := []
        gameState := Option.none
        lastCommand := Option.none
        btwEnabled := Json.bool false
        btwDuration := Json.num 2 }
    ∧ Native.onTextReceived 5 "p1" Option.none
        { devices := []
          gameState := Option.none
          lastCommand := Option.none
          btwEnabled := Json.bool false
          btwDuration := Json.num 2 } =
      { devices := []
        gameState := Option.none
        lastCommand := Option.none
        btwEnabled := Json.bool false
        btwDuration := Json.num 2 } := by
  constructor
  · exact C5_malformed_dispatch_safe.2 5 "p1"
      (Json.obj [("type", Json.str "ping"), ("x", Json.num 1)]) _ rfl rfl rfl rfl
  · exact C5_malformed_dispatch_safe.1 5 "p1" _

/-- C8: an inbound `settings` message makes the native dispatcher replace
the back-to-white cells with the payload's `backToWhite` defaulted to
`false` and `duration` defaulted to `2` (nullish coalescing), a payload
omitting either field producing exactly that default; the web transport's
`settings` listener applies the same two defaults. -/
theorem C8_settings_defaults :
    (∀ (now : Int) (pid : String) (payload : Json) (s : Native.DispatchState),
        payload.get "type" = Option.some (Json.str "settings") →
        Native.onTextReceived now pid (Option.some payload) s =
          { s with
            btwEnabled := nullish (payload.get "backToWhite") (Json.bool false)
            btwDuration := nullish (payload.get "duration") (Json.num 2) })
    ∧ (∀ payload : Json, payload.get "backToWhite" = Option.none →
        nullish (payload.get "backToWhite") (Json.bool false) = Json.bool false)
    ∧ (∀ payload : Json, payload.get "duration" = Option.none →
        nullish (payload.get "duration") (Json.num 2) = Json.num 2)
    ∧ (∀ (d : Web.SettingsSnap) (prev : BackToWhiteSettings),
        Web.settingsListener (Option.some d) prev =
          { enabled := d.backToWhite.getD false, duration := d.duration.getD 2 })
    ∧ (∀ (d : Web.SettingsSnap) (prev : BackToWhiteSettings),
        d.backToWhite = Option.none →
        (Web.settingsListener (Option.some d) prev).enabled = false)
    ∧ (∀ (d : Web.SettingsSnap) (prev : BackToWhiteSettings),
        d.duration = Option.none →
        (Web.settingsListener (Option.some d) prev).duration = 2) := by
  refine ⟨?_, ?_, ?_, ?_, ?_, ?_⟩
  · intro now pid payload s h
    simp [Native.onTextReceived, typeIs, h, Json.isStr]
  · intro payload h
    rw [h]
    rfl
  · intro payload h
    rw [h]
    rfl
  · intro d prev
    rfl
  · intro d prev h
    simp [Web.settingsListener, h]
  · intro d prev h
    simp [Web.settingsListener, h]

/-- C8 witness: a concrete `settings` payload carrying only `backToWhite`
yields the default duration 2 in the native dispatcher, and an empty web
settings snapshot yields both defaults. -/
theorem C8_settings_defaults_witness :
    Native.onTextReceived 7 "p1"
        (Option.some (Json.obj [("type", Json.str "settings"), ("backToWhite", Json.bool true)]))
        { devices := []
          gameState := Option.none
          lastCommand := Option.none
          btwEnabled := Json.bool false
          btwDuration := Json.num 2 } =
      { devices := []
        gameState := Option.none
        lastCommand := Option.none
        btwEnabled := Json.bool true
        btwDuration := Json.num 2 }
    ∧ Web.settingsListener
        (Option.some { backToWhite := Option.none, duration := Option.none })
        { enabled := true, duration := 9 } =
      { enabled := false, duration := 2 } := by
  constructor
  · have h := C8_settings_defaults.1 7 "p1"
      (Json.obj [("type", Json.str "settings"), ("backToWhite", Json.bool true)])
      { devices := []
        gameState := Option.none
        lastCommand := Option.none
        btwEnabled := Json.bool false
        btwDuration := Json.num 2 } rfl
    rw [h]
    rfl
  · exact (C8_settings_defaults.2.2.2.1
      { backToWhite := Option.none, duration := Option.none } { enabled := true, duration := 9 }).trans rfl

/-- C1 (amended): an inbound `command` message with numeric timestamp `t`
is applied to `lastCommand` iff `t > now - 10000` in the native dispatcher;
the web transport's commands listener with a single pending command applies
it iff it passes the same 10-second window; the Firebase-lobby variant,
however, uses a 5-second window: it applies the snapshot iff
`t > now - 5000` and leaves `lastCommand` unchanged otherwise. -/
theorem C1_command_staleness_windows :
    (∀ (now : Int) (pid : String) (payload : Json) (s : Native.DispatchState) (t : Int),
        payload.get "type" = Option.some (Json.str "command") →
        payload.get "timestamp" = Option.some (Json.num t) →
        Native.onTextReceived now pid (Option.some payload) s =
          if now - 10000 < t then { s with lastCommand := Option.some payload } else s)
    ∧ (∀ (now : Int) (c : Command) (last : Option Command),
        Web.commandsListener now (Option.some [c]) last =
          if now - 10000 < c.timestamp then Option.some c else last)
    ∧ (∀ (now : Int) (d : Command) (s : Fire.HookState),
        (Fire.commandListener now (Option.some d) s).lastCommand =
          if now - 5000 < d.timestamp then Option.some d else s.lastCommand) := by
  refine ⟨?_, ?_, ?_⟩
  · intro now pid payload s t h1 h2
    by_cases hf : now - 10000 < t
    · simp [Native.onTextReceived, typeIs, h1, Json.isStr, jsGtNum, h2, hf]
    · simp [Native.onTextReceived, typeIs, h1, Json.isStr, jsGtNum, h2, hf]
  · intro now c last
    by_cases hf : now - 10000 < c.timestamp
    · simp [Web.commandsListener, Web.sortDesc, Web.insertDesc, List.filter, hf]
    · simp [Web.commandsListener, Web.sortDesc, Web.insertDesc, List.filter, hf]
  · intro now d s
    by_cases hf : now - 5000 < d.timestamp
    · simp [Fire.commandListener, hf]
    · simp [Fire.commandListener, hf]

/-- C1 counterexample: at receiver time 100000 ms, a command stamped
93000 ms is fresh under the claimed uniform 10-second window
(93000 > 100000 - 10000), yet the Firebase-lobby dispatcher leaves
`lastCommand` unchanged because its window is 5 seconds. -/
theorem C1_command_staleness_counterexample :
    ((100000 : Int) - 10000 < 93000)
    ∧ (Fire.commandListener 100000
        (Option.some { name := "Red", cls := "bg-red-500", timestamp := 93000 })
        { devices := []
          myRole := Role.display
          remoteMode := RemoteMode.display
          gameState := { state := GamePhase.LOBBY, game := Option.none }
          lastCommand := Option.none
          isLoading := false
          error := Option.none }).lastCommand = Option.none := by
  exact ⟨by norm_num, rfl⟩

/-- C1 witness: at receiver time 100001 ms a command stamped 100000 ms is
applied by the native dispatcher, and at receiver time 100000 ms a command
stamped 96000 ms is applied by the Firebase-lobby listener (it clears the
5-second window). -/
theorem C1_command_staleness_windows_witness :
    Native.onTextReceived 100001 "p1"
        (Option.some (Json.obj
          [("type", Json.str "command"), ("name", Json.str "Red"),
           ("class", Json.str "bg-red-500"), ("timestamp", Json.num 100000)]))
        { devices := []
          gameState := Option.none
          lastCommand := Option.none
          btwEnabled := Json.bool false
          btwDuration := Json.num 2 } =
      { devices := []
        gameState := Option.none
        lastCommand := Option.some (Json.obj
          [("type", Json.str "command"), ("name", Json.str "Red"),
           ("class", Json.str "bg-red-500"), ("timestamp", Json.num 100000)])
        btwEnabled := Json.bool false
        btwDuration := Json.num 2 }
    ∧ (Fire.commandListener 100000
        (Option.some { name := "Red", cls := "bg-red-500", timestamp := 96000 })
        { devices := []
          myRole := Role.display
          remoteMode := RemoteMode.display
          gameState := { state := GamePhase.LOBBY, game := Option.none }
          lastCommand := Option.none
          isLoading := false
          error := Option.none }).lastCommand =
      Option.some { name := "Red", cls := "bg-red-500", timestamp := 96000 } := by
  constructor
  · have h := C1_command_staleness_windows.1 100001 "p1"
      (Json.obj
        [("type", Json.str "command"), ("name", Json.str "Red"),
         ("class", Json.str "bg-red-500"), ("timestamp", Json.num 100000)])
      { devices := []
        gameState := Option.none
        lastCommand := Option.none
        btwEnabled := Json.bool false
        btwDuration := Json.num 2 } 100000 rfl rfl
    rw [h]
    norm_num
  · have h := C1_command_staleness_windows.2.2 100000
      { name := "Red", cls := "bg-red-500", timestamp := 96000 }
      { devices := []
        myRole := Role.display
        remoteMode := RemoteMode.display
        gameState := { state := GamePhase.LOBBY, game := Option.none }
        lastCommand := Option.none
        isLoading := false
        error := Option.none }
    rw [h]
    norm_num

/-- C3 (amended): per-peer send failures never change the hook state (and
in particular never set `error`) in the native transport, whatever the
per-peer outcomes, and a broadcast always issues one send per connected
peer; the Firebase-lobby broadcast path likewise only logs per-display
failures and writes to every display.  In the web transport a broadcast
still initiates a write to every known device regardless of failures, but
any failed write is promoted to the user-visible `error` field as
`SEND_COMMAND_FAILED`, contradicting the claim for that variant. -/
theorem C3_send_failure_policy :
    (∀ (now : Int) (n c : String) (t : Option String) (s : Native.HookState),
        (Native.sendCommand now n c t s).1 = s)
    ∧ (∀ (now : Int) (n c : String) (s : Native.HookState),
        (Native.sendCommand now n c Option.none s).2.map Prod.fst = s.connectedPeers)
    ∧ (∀ (ok : String → Bool) (now : Int) (n c : String) (s : Fire.HookState),
        (Fire.sendCommand ok now n c Option.none s).1 = s)
    ∧ (∀ (ok : String → Bool) (now : Int) (n c : String) (s : Fire.HookState),
        (Fire.sendCommand ok now n c Option.none s).2.map Prod.fst =
          (s.devices.filter (fun d => d.role == Role.display)).map (fun d => d.id))
    ∧ (∀ (ok : String → Bool) (now : Int) (n c : String) (s : Web.HookState),
        s.devices ≠ [] →
        (Web.sendCommand ok now n c Option.none s).2.map Prod.fst =
          s.devices.map (fun d => d.id))
    ∧ (∀ (ok : String → Bool) (now : Int) (n c : String) (s : Web.HookState),
        s.devices ≠ [] →
        (s.devices.map (fun d => d.id)).all ok = false →
        (Web.sendCommand ok now n c Option.none s).1.error =
          Option.some { code := "SEND_COMMAND_FAILED", message := "Failed to send command" }) := by
  refine ⟨?_, ?_, ?_, ?_, ?_, ?_⟩
  · intro now n c t s
    cases t <;> rfl
  · intro now n c s
    simp [Native.sendCommand, Function.comp_def]
  · intro ok now n c s
    rfl
  · intro ok now n c s
    simp [Fire.sendCommand]
  · intro ok now n c s hne
    simp [Web.sendCommand, hne]
  · intro ok now n c s hne hfail
    simp [Web.sendCommand, hne, hfail]

/-- C3 counterexample: in the web transport a broadcast `sendCommand` whose
single write fails sets the user-visible `error` field to
`SEND_COMMAND_FAILED`, so a send failure is not merely logged there. -/
theorem C3_send_failure_counterexample :
    (Web.sendCommand (fun _ => false) 5 "Red" "bg-red-500" Option.none
        { devices :=
            [{ id := "d1", client_id := "d1", name := "A", role := Role.display, lastSeen := 0 }]
          myRole := Role.controller
          remoteMode := RemoteMode.controller
          gameState := { state := GamePhase.LOBBY, game := Option.none }
          lastCommand := Option.none
          error := Option.none
          backToWhite := { enabled := false, duration := 2 }
          isConnected := false
          activeMode := RemoteMode.controller
          activeRole := Role.controller }).1.error =
      Option.some { code := "SEND_COMMAND_FAILED", message := "Failed to send command" } := by
  rfl

/-- C3 witness: a native broadcast with two connected peers keeps the hook
state identical and issues exactly the two sends, and a failing web
broadcast still issues a write to each of the two known devices. -/
theorem C3_send_failure_policy_witness :
    (Native.sendCommand 5 "Red" "bg-red-500" Option.none
        { Native.initialState with connectedPeers := ["p1", "p2"] }).1 =
      { Native.initialState with connectedPeers := ["p1", "p2"] }
    ∧ (Native.sendCommand 5 "Red" "bg-red-500" Option.none
        { Native.initialState with connectedPeers := ["p1", "p2"] }).2.map Prod.fst =
      ["p1", "p2"]
    ∧ (Web.sendCommand (fun _ => false) 5 "Red" "bg-red-500" Option.none
        { devices :=
            [{ id := "d1", client_id := "d1", name := "A", role := Role.display, lastSeen := 0 },
             { id := "d2", client_id := "d2", name := "B", role := Role.display, lastSeen := 0 }]
          myRole := Role.controller
          remoteMode := RemoteMode.controller
          gameState := { state := GamePhase.LOBBY, game := Option.none }
          lastCommand := Option.none
          error := Option.none
          backToWhite := { enabled := false, duration := 2 }
          isConnected := false
          activeMode := RemoteMode.controller
          activeRole := Role.controller }).2.map Prod.fst = ["d1", "d2"] := by
  refine ⟨?_, ?_, ?_⟩
  · exact C3_send_failure_policy.1 5 "Red" "bg-red-500" Option.none
      { Native.initialState with connectedPeers := ["p1", "p2"] }
  · exact C3_send_failure_policy.2.1 5 "Red" "bg-red-500"
      { Native.initialState with connectedPeers := ["p1", "p2"] }
  · have h := C3_send_failure_policy.2.2.2.2.1 (fun _ => false) 5 "Red" "bg-red-500"
      { devices :=
          [{ id := "d1", client_id := "d1", name := "A", role := Role.display, lastSeen := 0 },
           { id := "d2", client_id := "d2", name := "B", role := Role.display, lastSeen := 0 }]
        myRole := Role.controller
        remoteMode := RemoteMode.controller
        gameState := { state := GamePhase.LOBBY, game := Option.none }
        lastCommand := Option.none
        error := Option.none
        backToWhite := { enabled := false, duration := 2 }
        isConnected := false
        activeMode := RemoteMode.controller
        activeRole := Role.controller } (by simp)
    rw [h]
    rfl

/-- C2 (amended): when the applied `(remoteMode, myRole)` pair changes, the
native transition effect clears the connected/connecting sets, the
connection queue and `knownDevices` exactly when the new `remoteMode` is
`none`; on every other pair change it stops and restarts the transport but
retains `knownDevices` and the peer sets.  The web variant clears
`knownDevices` exactly when the new mode is `none` or the new role `idle`,
and retains it on every other pair change. -/
theorem C2_reset_scope :
    (∀ (o : Native.StartOutcome) (s : Native.HookState),
        ¬(s.remoteMode = s.activeMode ∧ s.myRole = s.activeRole) →
        s.remoteMode = RemoteMode.none →
          (Native.transitionEffect o s).devices = []
          ∧ (Native.transitionEffect o s).connectedPeers = []
          ∧ (Native.transitionEffect o s).connectingPeers = []
          ∧ (Native.transitionEffect o s).connectionQueue = [])
    ∧ (∀ (o : Native.StartOutcome) (s : Native.HookState),
        ¬(s.remoteMode = s.activeMode ∧ s.myRole = s.activeRole) →
        s.remoteMode ≠ RemoteMode.none →
          (Native.transitionEffect o s).devices = s.devices
          ∧ (Native.transitionEffect o s).connectedPeers = s.connectedPeers
          ∧ (Native.transitionEffect o s).connectingPeers = s.connectingPeers)
    ∧ (∀ s : Web.HookState,
        ¬(s.remoteMode = s.activeMode ∧ s.myRole = s.activeRole) →
        (s.remoteMode = RemoteMode.none ∨ s.myRole = Role.idle) →
          (Web.transitionEffect s).devices = [])
    ∧ (∀ s : Web.HookState,
        ¬(s.remoteMode = s.activeMode ∧ s.myRole = s.activeRole) →
        s.remoteMode ≠ RemoteMode.none → s.myRole ≠ Role.idle →
          (Web.transitionEffect s).devices = s.devices) := by
  refine ⟨?_, ?_, ?_, ?_⟩
  · intro o s hch hnone
    unfold Native.transitionEffect
    rw [if_neg hch]
    simp [hnone]
  · intro o s hch hnn
    cases o <;> simp [Native.transitionEffect, hch, hnn]
  · intro s hch hstop
    unfold Web.transitionEffect
    rw [if_neg hch]
    rcases hstop with h | h <;> simp [h]
  · intro s hch h1 h2
    simp [Web.transitionEffect, hch, h1, h2]

/-- C2 counterexample: the call sequence joinLobby, setMyRole(controller),
a peer connecting, setMyRole(display) changes the effective pair from
(lobby, controller) to (lobby, display); the transition completes (the
applied role becomes display) yet the device known from the controller
phase is still present, so `knownDevices` is not empty after this
transition. -/
theorem C2_reset_scope_counterexample :
    (Native.transitionEffect Native.StartOutcome.ok
      (Native.setRole Role.display
        (Native.onConnected 1000 "p1" "Phone"
          (Native.transitionEffect Native.StartOutcome.ok
            (Native.setRole Role.controller
              (Native.transitionEffect Native.StartOutcome.ok
                (Native.joinLobby Native.initialState))))))).devices =
      [{ id := "p1", client_id := "p1", name := "Phone", role := Role.idle, lastSeen := 1000 }]
    ∧ (Native.transitionEffect Native.StartOutcome.ok
        (Native.setRole Role.display
          (Native.onConnected 1000 "p1" "Phone"
            (Native.transitionEffect Native.StartOutcome.ok
              (Native.setRole Role.controller
                (Native.transitionEffect Native.StartOutcome.ok
                  (Native.joinLobby Native.initialState))))))).activeRole = Role.display
    ∧ (Native.transitionEffect Native.StartOutcome.ok
        (Native.setRole Role.display
          (Native.onConnected 1000 "p1" "Phone"
            (Native.transitionEffect Native.StartOutcome.ok
              (Native.setRole Role.controller
                (Native.transitionEffect Native.StartOutcome.ok
                  (Native.joinLobby Native.initialState))))))).activeMode = RemoteMode.lobby := by
  refine ⟨by decide, by decide, by decide⟩

/-- C2 witness: a concrete pair change into mode `none` clears devices,
peer sets and queue, and a concrete controller-to-display pair change at
mode `lobby` retains the known device. -/
theorem C2_reset_scope_witness :
    (Native.transitionEffect Native.StartOutcome.ok
        { Native.initialState with
            remoteMode := RemoteMode.none
            myRole := Role.idle
            activeMode := RemoteMode.lobby
            activeRole := Role.controller
            devices :=
              [{ id := "p1", client_id := "p1", name := "A", role := Role.idle, lastSeen := 0 }]
            connectedPeers := ["p1"]
            connectingPeers := ["p2"]
            connectionQueue := ["p2"] }).devices = []
    ∧ (Native.transitionEffect Native.StartOutcome.ok
        { Native.initialState with
            remoteMode := RemoteMode.lobby
            myRole := Role.display
            activeMode := RemoteMode.lobby
            activeRole := Role.controller
            devices :=
              [{ id := "p1", client_id := "p1", name := "A", role := Role.idle, lastSeen := 0 }]
            connectedPeers := ["p1"] }).devices =
      [{ id := "p1", client_id := "p1", name := "A", role := Role.idle, lastSeen := 0 }]
    ∧ (Web.transitionEffect
        { devices :=
            [{ id := "d1", client_id := "d1", name := "A", role := Role.display, lastSeen := 0 }]
          myRole := Role.idle
          remoteMode := RemoteMode.lobby
          gameState := { state := GamePhase.LOBBY, game := Option.none }
          lastCommand := Option.none
          error := Option.none
          backToWhite := { enabled := false, duration := 2 }
          isConnected := true
          activeMode := RemoteMode.lobby
          activeRole := Role.controller }).devices = [] := by
  refine ⟨?_, ?_, ?_⟩
  · exact (C2_reset_scope.1 Native.StartOutcome.ok
      { Native.initialState with
          remoteMode := RemoteMode.none
          myRole := Role.idle
          activeMode := RemoteMode.lobby
          activeRole := Role.controller
          devices :=
            [{ id := "p1", client_id := "p1", name := "A", role := Role.idle, lastSeen := 0 }]
          connectedPeers := ["p1"]
          connectingPeers := ["p2"]
          connectionQueue := ["p2"] } (by simp) rfl).1
  · exact ((C2_reset_scope.2.1 Native.StartOutcome.ok
      { Native.initialState with
          remoteMode := RemoteMode.lobby
          myRole := Role.display
          activeMode := RemoteMode.lobby
          activeRole := Role.controller
          devices :=
            [{ id := "p1", client_id := "p1", name := "A", role := Role.idle, lastSeen := 0 }]
          connectedPeers := ["p1"] } (by simp) (by simp)).1).trans rfl
  · exact C2_reset_scope.2.2.1
      { devices :=
          [{ id := "d1", client_id := "d1", name := "A", role := Role.display, lastSeen := 0 }]
        myRole := Role.idle
        remoteMode := RemoteMode.lobby
        gameState := { state := GamePhase.LOBBY, game := Option.none }
        lastCommand := Option.none
        error := Option.none
        backToWhite := { enabled := false, duration := 2 }
        isConnected := true
        activeMode := RemoteMode.lobby
        activeRole := Role.controller } (by simp) (Or.inr rfl)

/-- Membership in `insertDesc` is membership in the inserted element or the
original list. -/
lemma mem_insertDesc {x c : Command} {l : List Command} :
    x ∈ Web.insertDesc c l ↔ x = c ∨ x ∈ l := by
  induction l with
  | nil => simp [Web.insertDesc]
  | cons d rest ih =>
    unfold Web.insertDesc
    by_cases h : d.timestamp < c.timestamp
    · simp [h, List.mem_cons]
    · simp [h, List.mem_cons, ih]
      tauto

/-- A nonempty list sorted by `sortDesc` starts with an element of the list
whose timestamp dominates every element's timestamp. -/
lemma sortDesc_head_max :
    ∀ l : List Command, l ≠ [] →
      ∃ c rest, Web.sortDesc l = c :: rest ∧ c ∈ l ∧ ∀ x ∈ l, x.timestamp ≤ c.timestamp := by
  intro l
  induction l with
  | nil =>
    intro h
    exact absurd rfl h
  | cons a t ih =>
    intro _
    by_cases ht : t = []
    · subst ht
      exact ⟨a, [], rfl, by simp, by simp⟩
    · obtain ⟨c, rest, hsort, hmem, hmax⟩ := ih ht
      have hstep : Web.sortDesc (a :: t) = Web.insertDesc a (c :: rest) := by
        simp [Web.sortDesc, hsort]
      by_cases hca : c.timestamp < a.timestamp
      · refine ⟨a, c :: rest, ?_, by simp, ?_⟩
        · rw [hstep]
          simp [Web.insertDesc, hca]
        · intro x hx
          rcases List.mem_cons.mp hx with h | h
          · rw [h]
          · exact le_trans (hmax x h) (le_of_lt hca)
      · refine ⟨c, Web.insertDesc a rest, ?_, by simp [hmem], ?_⟩
        · rw [hstep]
          simp [Web.insertDesc, hca]
        · intro x hx
          rcases List.mem_cons.mp hx with h | h
          · rw [h]
            exact not_lt.mp hca
          · exact hmax x h

/-- C9: in the web transport, with a nonempty set of pending commands on
the recipient's `commands` sub-path, the listener applies the command whose
timestamp strictly dominates all others among those newer than 10 seconds,
independently of the order the commands were written in; when every pending
command is stale (and when the sub-path is empty) `lastCommand` is left
unchanged. -/
theorem C9_latest_pending_command (now : Int) (cmds : List Command) (last : Option Command) :
    (Web.commandsListener now Option.none last = last)
    ∧ ((∀ c ∈ cmds, c.timestamp ≤ now - 10000) →
        Web.commandsListener now (Option.some cmds) last = last)
    ∧ (∀ c ∈ cmds, now - 10000 < c.timestamp →
        (∀ d ∈ cmds, d ≠ c → d.timestamp < c.timestamp) →
        Web.commandsListener now (Option.some cmds) last = Option.some c) := by
  refine ⟨rfl, ?_, ?_⟩
  · intro hall
    have hfil : cmds.filter (fun c => now - 10000 < c.timestamp) = [] := by
      rw [List.filter_eq_nil_iff]
      intro a ha
      simp only [decide_eq_true_eq, not_lt]
      exact hall a ha
    simp [Web.commandsListener, hfil, Web.sortDesc]
  · intro c hc hfresh hdom
    have hcfl : c ∈ cmds.filter (fun d => now - 10000 < d.timestamp) :=
      List.mem_filter.mpr ⟨hc, by simp [hfresh]⟩
    obtain ⟨h, rest, hsort, hhm, hhmax⟩ :=
      sortDesc_head_max (cmds.filter (fun d => now - 10000 < d.timestamp))
        (List.ne_nil_of_mem hcfl)
    have hhc : h = c := by
      by_contra hne2
      have h1 : h ∈ cmds := (List.mem_filter.mp hhm).1
      have h2 : h.timestamp < c.timestamp := hdom h h1 hne2
      exact absurd h2 (not_lt.mpr (hhmax c hcfl))
    subst hhc
    simp [Web.commandsListener, hsort]

/-- C9 witness: among three pending commands, one stale and two fresh, the
listener applies the fresh command with the larger timestamp; and when both
pending commands are stale the previous `lastCommand` survives. -/
theorem C9_latest_pending_command_witness :
    Web.commandsListener 100000
        (Option.some
          [{ name := "A", cls := "a", timestamp := 95000 },
           { name := "B", cls := "b", timestamp := 97000 },
           { name := "C", cls := "c", timestamp := 80000 }])
        Option.none =
      Option.some { name := "B", cls := "b", timestamp := 97000 }
    ∧ Web.commandsListener 100000
        (Option.some
          [{ name := "D", cls := "d", timestamp := 10000 },
           { name := "E", cls := "e", timestamp := 20000 }])
        (Option.some { name := "X", cls := "x", timestamp := 1 }) =
      Option.some { name := "X", cls := "x", timestamp := 1 } := by
  constructor
  · exact (C9_latest_pending_command 100000
      [{ name := "A", cls := "a", timestamp := 95000 },
       { name := "B", cls := "b", timestamp := 97000 },
       { name := "C", cls := "c", timestamp := 80000 }] Option.none).2.2
      { name := "B", cls := "b", timestamp := 97000 } (by simp) (by norm_num)
      (by
        intro d hd hne
        fin_cases hd <;> simp_all)
  · exact (C9_latest_pending_command 100000
      [{ name := "D", cls := "d", timestamp := 10000 },
       { name := "E", cls := "e", timestamp := 20000 }]
      (Option.some { name := "X", cls := "x", timestamp := 1 })).2.1
      (by
        intro d hd
        fin_cases hd <;> norm_num)

/-- A payload whose `type` is `device_info` makes the dispatcher perform
exactly the device upsert. -/
lemma onText_device_info (now : Int) (pid : String) (m : Json) (s : Native.DispatchState)
    (h : m.get "type" = Option.some (Json.str "device_info")) :
    Native.onTextReceived now pid (Option.some m) s =
      { s with devices := Native.upsertDeviceInfo now pid m s.devices } := by
  simp [Native.onTextReceived, typeIs, h, Json.isStr]

/-- The upsert keyed on the sender id preserves the id list of the device
set, except for possibly appending a fresh id, so id uniqueness is
preserved. -/
lemma upsert_ids_nodup (now : Int) (pid : String) (m : Json) (ds : List Native.JDevice)
    (h : (ds.map (fun d => d.id)).Nodup) :
    ((Native.upsertDeviceInfo now pid m ds).map (fun d => d.id)).Nodup := by
  unfold Native.upsertDeviceInfo
  by_cases hex : ds.any (fun d => d.id == pid)
  · rw [if_pos hex]
    have hids : (ds.map (fun d =>
        if d.id == pid then
          { d with
            role := m.get "role"
            name := m.get "name"
            client_id := jsOr (m.get "id") d.client_id }
        else d)).map (fun d => d.id) = ds.map (fun d => d.id) := by
      rw [List.map_map]
      apply List.map_congr_left
      intro d _
      simp only [Function.comp_apply]
      split <;> rfl
    rw [hids]
    exact h
  · rw [if_neg hex]
    have hpid : pid ∉ ds.map (fun d => d.id) := by
      intro hmem
      obtain ⟨d, hd, hid⟩ := List.mem_map.mp hmem
      exact hex (List.any_eq_true.mpr ⟨d, hd, by simp [hid]⟩)
    rw [List.map_append]
    simp [List.nodup_append, h, hpid]

/-- The whole dispatcher preserves id uniqueness of the device set: only
the `device_info` branch touches `devices`, and it does so via the upsert. -/
lemma onText_ids_nodup (now : Int) (pid : String) (p : Option Json)
    (s : Native.DispatchState)
    (h : (s.devices.map (fun d => d.id)).Nodup) :
    ((Native.onTextReceived now pid p s).devices.map (fun d => d.id)).Nodup := by
  cases p with
  | none => exact h
  | some payload =>
    simp only [Native.onTextReceived]
    split
    · exact upsert_ids_nodup now pid payload s.devices h
    · split
      · split
        · exact h
        · exact h
      · split
        · exact h
        · split
          · exact h
          · exact h

/-- Upserting from a sender whose id matches exactly the last appended
entry (and no earlier entry) rewrites just that entry with the new
payload's fields. -/
lemma upsert_append_eq (now : Int) (pid : String) (m : Json)
    (ds : List Native.JDevice) (e : Native.JDevice)
    (hfresh : ∀ d ∈ ds, d.id ≠ pid) (he : e.id = pid) :
    Native.upsertDeviceInfo now pid m (ds ++ [e]) =
      ds ++ [{ e with
               role := m.get "role"
               name := m.get "name"
               client_id := jsOr (m.get "id") e.client_id }] := by
  have hany : (ds ++ [e]).any (fun d => d.id == pid) = true := by
    rw [List.any_append]
    simp [he]
  unfold Native.upsertDeviceInfo
  rw [hany, if_pos rfl, List.map_append]
  have hmap : ds.map (fun d =>
      if d.id == pid then
        { d with
          role := m.get "role"
          name := m.get "name"
          client_id := jsOr (m.get "id") d.client_id }
      else d) = ds.map (fun d => d) := by
    apply List.map_congr_left
    intro d hd
    simp [hfresh d hd]
  rw [hmap]
  simp [he]

/-- Two successive upserts from the same previously-unknown sender produce
exactly one appended entry carrying the second payload's fields, with the
`client_id` fallback chain threaded through both payloads. -/
lemma upsert_twice_fresh (now1 now2 : Int) (pid : String) (m1 m2 : Json)
    (ds : List Native.JDevice) (hfresh : ∀ d ∈ ds, d.id ≠ pid) :
    Native.upsertDeviceInfo now2 pid m2 (Native.upsertDeviceInfo now1 pid m1 ds) =
      ds ++ [{ id := pid
               client_id := jsOr (m2.get "id") (jsOr (m1.get "id") (Json.str pid))
               name := m2.get "name"
               role := m2.get "role"
               lastSeen := now1 }] := by
  have hany1 : ds.any (fun d => d.id == pid) = false := by
    rw [List.any_eq_false]
    intro d hd
    simp [hfresh d hd]
  have step1 : Native.upsertDeviceInfo now1 pid m1 ds =
      ds ++ [{ id := pid
               client_id := jsOr (m1.get "id") (Json.str pid)
               name := m1.get "name"
               role := m1.get "role"
               lastSeen := now1 }] := by
    unfold Native.upsertDeviceInfo
    rw [hany1]
    simp
  rw [step1, upsert_append_eq now2 pid m2 ds _ hfresh rfl]

/-- C7: two `device_info` messages from the same previously-unknown sender
id leave exactly one `knownDevices` entry for that id, whose `name` and
`role` come from the second (most recent) message and whose `client_id`
follows the payload-id fallback chain of the most recent message; moreover
every dispatch step preserves uniqueness of sender ids in the device set. -/
theorem C7_device_info_upsert (now1 now2 : Int) (pid : String) (m1 m2 : Json)
    (s : Native.DispatchState)
    (h1 : m1.get "type" = Option.some (Json.str "device_info"))
    (h2 : m2.get "type" = Option.some (Json.str "device_info"))
    (hfresh : ∀ d ∈ s.devices, d.id ≠ pid) :
    (((Native.onTextReceived now2 pid (Option.some m2)
          (Native.onTextReceived now1 pid (Option.some m1) s)).devices.filter
            (fun d => d.id == pid)).length = 1
      ∧ (∀ d ∈ (Native.onTextReceived now2 pid (Option.some m2)
            (Native.onTextReceived now1 pid (Option.some m1) s)).devices,
            d.id = pid →
              d.name = m2.get "name" ∧ d.role = m2.get "role"
              ∧ d.client_id = jsOr (m2.get "id") (jsOr (m1.get "id") (Json.str pid))))
    ∧ (∀ (now : Int) (q : String) (p : Option Json) (t : Native.DispatchState),
        (t.devices.map (fun d => d.id)).Nodup →
        ((Native.onTextReceived now q p t).devices.map (fun d => d.id)).Nodup) := by
  have hdev : (Native.onTextReceived now2 pid (Option.some m2)
      (Native.onTextReceived now1 pid (Option.some m1) s)).devices =
      s.devices ++ [{ id := pid
                      client_id := jsOr (m2.get "id") (jsOr (m1.get "id") (Json.str pid))
                      name := m2.get "name"
                      role := m2.get "role"
                      lastSeen := now1 }] := by
    rw [onText_device_info now1 pid m1 s h1, onText_device_info now2 pid m2 _ h2]
    exact upsert_twice_fresh now1 now2 pid m1 m2 s.devices hfresh
  refine ⟨⟨?_, ?_⟩, ?_⟩
  · rw [hdev, List.filter_append]
    have hl : s.devices.filter (fun d => d.id == pid) = [] := by
      rw [List.filter_eq_nil_iff]
      intro d hd
      simp [hfresh d hd]
    rw [hl]
    simp
  · rw [hdev]
    intro d hd hid
    rcases List.mem_append.mp hd with hmem | hmem
    · exact absurd hid (hfresh d hmem)
    · rw [List.mem_singleton.mp hmem]
      exact ⟨rfl, rfl, rfl⟩
  · intro now q p t ht
    exact onText_ids_nodup now q p t ht

/-- C7 witness: from an empty device set, a `device_info` naming the sender
Alice followed by one naming it Bob (without a payload id) leave exactly
one entry for the sender, carrying the name Bob and the first payload's
client id. -/
theorem C7_device_info_upsert_witness :
    ((Native.onTextReceived 2 "p1"
        (Option.some (Json.obj
          [("type", Json.str "device_info"), ("name", Json.str "Bob"),
           ("role", Json.str "display")]))
        (Native.onTextReceived 1 "p1"
          (Option.some (Json.obj
            [("type", Json.str "device_info"), ("name", Json.str "Alice"),
             ("role", Json.str "display"), ("id", Json.str "c1")]))
          { devices := []
            gameState := Option.none
            lastCommand := Option.none
            btwEnabled := Json.bool false
            btwDuration := Json.num 2 })).devices.filter
        (fun d => d.id == "p1")).length = 1
    ∧ (Native.onTextReceived 2 "p1"
        (Option.some (Json.obj
          [("type", Json.str "device_info"), ("name", Json.str "Bob"),
           ("role", Json.str "display")]))
        (Native.onTextReceived 1 "p1"
          (Option.some (Json.obj
            [("type", Json.str "device_info"), ("name", Json.str "Alice"),
             ("role", Json.str "display"), ("id", Json.str "c1")]))
          { devices := []
            gameState := Option.none
            lastCommand := Option.none
            btwEnabled := Json.bool false
            btwDuration := Json.num 2 })).devices =
      [{ id := "p1"
         client_id := Json.str "c1"
         name := Option.some (Json.str "Bob")
         role := Option.some (Json.str "display")
         lastSeen := 1 }] := by
  constructor
  · exact (C7_device_info_upsert 1 2 "p1"
      (Json.obj
        [("type", Json.str "device_info"), ("name", Json.str "Alice"),
         ("role", Json.str "display"), ("id", Json.str "c1")])
      (Json.obj
        [("type", Json.str "device_info"), ("name", Json.str "Bob"),
         ("role", Json.str "display")])
      { devices := []
        gameState := Option.none
        lastCommand := Option.none
        btwEnabled := Json.bool false
        btwDuration := Json.num 2 } rfl rfl (by simp)).1.1
  · rfl

/-- The projection to peer ids of the drain-time schedule is the queue
itself. -/
lemma drainTimes_map_fst (dur : String → Nat) :
    ∀ (l : List String) (t : Nat), (Native.drainTimes dur t l).map Prod.fst = l := by
  intro l
  induction l with
  | nil =>
    intro t
    rfl
  | cons p rest ih =>
    intro t
    simp only [Native.drainTimes, List.map_cons, ih]

/-- Consecutive issue times in the drain-time schedule are at least 1500 ms
apart. -/
lemma drainTimes_chain (dur : String → Nat) :
    ∀ (l : List String) (t : Nat),
      List.Chain' (fun a b : String × Nat => a.2 + 1500 ≤ b.2)
        (Native.drainTimes dur t l) := by
  intro l
  induction l with
  | nil =>
    intro t
    simp [Native.drainTimes]
  | cons p rest ih =>
    intro t
    cases rest with
    | nil => simp [Native.drainTimes]
    | cons q rest2 =>
      have hsh : Native.drainTimes dur t (p :: q :: rest2) =
          (p, t) :: Native.drainTimes dur (t + dur p + 1500) (q :: rest2) := rfl
      rw [hsh]
      have hsh2 : Native.drainTimes dur (t + dur p + 1500) (q :: rest2) =
          (q, t + dur p + 1500) ::
            Native.drainTimes dur (t + dur p + 1500 + dur q + 1500) rest2 := rfl
      rw [hsh2, List.chain'_cons]
      constructor
      · simp
      · rw [← hsh2]
        exact ih (t + dur p + 1500)

/-- Once a drain is running with `k` queued peers that are all fresh and
will all accept, firing the pending cooldown callbacks `k + 1` times issues
exactly the scheduled requests and ends with an idle, empty queue. -/
lemma drain_spec (dur : String → Nat) (ok : String → Bool) :
    ∀ (q : List String) (t : Nat) (s : Native.QueueState),
      s.isProcessingQueue = true → s.timer = Option.some t →
      s.connectionQueue = q → s.connectedPeers = [] →
      (∀ p ∈ q, ok p = true) →
      Native.drain dur ok (q.length + 1) s =
        { s with
          connectionQueue := []
          isProcessingQueue := false
          timer := Option.none
          requests := s.requests ++ Native.drainTimes dur t q } := by
  intro q
  induction q with
  | nil =>
    intro t s hproc htimer hq hconn hok
    obtain ⟨cp, cg, cq, ip, tm, rq⟩ := s
    simp only at hproc htimer hq hconn
    subst hproc htimer hq hconn
    simp [Native.drain, Native.fireTimer, Native.processQueue, Native.drainTimes]
  | cons p rest ih =>
    intro t s hproc htimer hq hconn hok
    obtain ⟨cp, cg, cq, ip, tm, rq⟩ := s
    simp only at hproc htimer hq hconn
    subst hproc htimer hq hconn
    have hstep : Native.fireTimer dur ok
        { connectedPeers := []
          connectingPeers := cg
          connectionQueue := p :: rest
          isProcessingQueue := true
          timer := Option.some t
          requests := rq } =
        { connectedPeers := []
          connectingPeers := cg
          connectionQueue := rest
          isProcessingQueue := true
          timer := Option.some (t + dur p + 1500)
          requests := rq ++ [(p, t)] } := by
      simp [Native.fireTimer, Native.processQueue, hok p (by simp)]
    have hlen : (p :: rest).length + 1 = rest.length + 1 + 1 := by simp
    rw [hlen]
    show Native.drain dur ok (rest.length + 1) (Native.fireTimer dur ok _) = _
    rw [hstep]
    rw [ih (t + dur p + 1500) _ rfl rfl rfl rfl (fun r hr => hok r (by simp [hr]))]
    simp [Native.drainTimes, List.append_assoc]

/-- Offering a batch of fresh, pairwise-distinct peers while a drain is
already running only appends them to the connecting set and the queue. -/
lemma offerAll_fresh (dur : String → Nat) (ok : String → Bool) (now : Nat) :
    ∀ (qs : List String) (s : Native.QueueState),
      s.isProcessingQueue = true →
      qs.Nodup →
      (∀ q ∈ qs, q ∉ s.connectedPeers ∧ q ∉ s.connectingPeers) →
      Native.offerAll dur ok now qs s =
        { s with
          connectingPeers := s.connectingPeers ++ qs
          connectionQueue := s.connectionQueue ++ qs } := by
  intro qs
  induction qs with
  | nil =>
    intro s h1 h2 h3
    simp [Native.offerAll]
  | cons q rest ih =>
    intro s h1 h2 h3
    have hq := h3 q (by simp)
    have hadd : Native.addToConnectionQueue dur ok now q s =
        { s with
          connectingPeers := s.connectingPeers ++ [q]
          connectionQueue := s.connectionQueue ++ [q] } := by
      unfold Native.addToConnectionQueue
      rw [if_neg (by push_neg; exact hq)]
      unfold Native.processQueue
      rw [if_pos h1]
      unfold Native.addPeer
      rw [if_neg hq.2]
    have hfold : Native.offerAll dur ok now (q :: rest) s =
        Native.offerAll dur ok now rest (Native.addToConnectionQueue dur ok now q s) := rfl
    have har : ∀ r ∈ rest,
        r ∉ s.connectedPeers ∧ r ∉ s.connectingPeers ++ [q] := by
      intro r hr
      refine ⟨(h3 r (by simp [hr])).1, ?_⟩
      intro hmem
      rcases List.mem_append.mp hmem with hm | hm
      · exact (h3 r (by simp [hr])).2 hm
      · rw [List.mem_singleton.mp hm] at hr
        exact (List.nodup_cons.mp h2).1 hr
    rw [hfold, hadd]
    rw [ih { s with
              connectingPeers := s.connectingPeers ++ [q]
              connectionQueue := s.connectionQueue ++ [q] } h1 h2.of_cons har]
    simp [List.append_assoc]

/-- C6: offering `N` distinct, fresh, all-accepting peer ids to the
admission queue in one event-loop turn and letting the cooldown callbacks
run issues exactly the `N` connection requests, in the order the peers were
offered, each consecutive pair at least 1500 ms apart; and an offer for a
peer already connected or mid-connection is a no-op. -/
theorem C6_admission_queue (dur : String → Nat) (ok : String → Bool) (ps : List String)
    (hnd : ps.Nodup) (hok : ∀ p ∈ ps, ok p = true) :
    ((Native.drain dur ok ps.length
        (Native.offerAll dur ok 0 ps Native.emptyQueue)).requests =
      Native.drainTimes dur 0 ps)
    ∧ ((Native.drain dur ok ps.length
        (Native.offerAll dur ok 0 ps Native.emptyQueue)).requests.map Prod.fst = ps)
    ∧ List.Chain' (fun a b : String × Nat => a.2 + 1500 ≤ b.2)
        ((Native.drain dur ok ps.length
          (Native.offerAll dur ok 0 ps Native.emptyQueue)).requests)
    ∧ (∀ (now : Nat) (p : String) (s : Native.QueueState),
        p ∈ s.connectedPeers ∨ p ∈ s.connectingPeers →
        Native.addToConnectionQueue dur ok now p s = s) := by
  have hmain : (Native.drain dur ok ps.length
      (Native.offerAll dur ok 0 ps Native.emptyQueue)).requests =
      Native.drainTimes dur 0 ps := by
    cases ps with
    | nil => rfl
    | cons p rest =>
      have hfirst : Native.addToConnectionQueue dur ok 0 p Native.emptyQueue =
          { connectedPeers := []
            connectingPeers := [p]
            connectionQueue := []
            isProcessingQueue := true
            timer := Option.some (0 + dur p + 1500)
            requests := [(p, 0)] } := by
        simp [Native.addToConnectionQueue, Native.emptyQueue, Native.processQueue,
          Native.addPeer, hok p (by simp)]
      have hoffer : Native.offerAll dur ok 0 (p :: rest) Native.emptyQueue =
          { connectedPeers := []
            connectingPeers := [p] ++ rest
            connectionQueue := [] ++ rest
            isProcessingQueue := true
            timer := Option.some (0 + dur p + 1500)
            requests := [(p, 0)] } := by
        have hf : Native.offerAll dur ok 0 (p :: rest) Native.emptyQueue =
            Native.offerAll dur ok 0 rest
              (Native.addToConnectionQueue dur ok 0 p Native.emptyQueue) := rfl
        rw [hf, hfirst]
        exact offerAll_fresh dur ok 0 rest _ rfl hnd.of_cons (by
          intro r hr
          refine ⟨by simp, ?_⟩
          simp only [List.mem_singleton]
          intro hrp
          rw [hrp] at hr
          exact (List.nodup_cons.mp hnd).1 hr)
      rw [hoffer]
      have hlen : (p :: rest).length = rest.length + 1 := rfl
      rw [hlen]
      rw [drain_spec dur ok rest (0 + dur p + 1500) _ rfl rfl (by simp) rfl
        (fun r hr => hok r (by simp [hr]))]
      rfl
  refine ⟨hmain, ?_, ?_, ?_⟩
  · rw [hmain]
    exact drainTimes_map_fst dur ps 0
  · rw [hmain]
    exact drainTimes_chain dur ps 0
  · intro now p s h
    unfold Native.addToConnectionQueue
    rw [if_pos h]

/-- C6 witness: three distinct peers offered at once, with instantly
settling, always-accepting connection requests, produce exactly the three
requests at times 0, 1500 and 3000 in offer order; and re-offering a peer
already mid-connection changes nothing. -/
theorem C6_admission_queue_witness :
    (Native.drain (fun _ => 0) (fun _ => true) (["a", "b", "c"].length)
        (Native.offerAll (fun _ => 0) (fun _ => true) 0 ["a", "b", "c"]
          Native.emptyQueue)).requests =
      [("a", 0), ("b", 1500), ("c", 3000)]
    ∧ Native.addToConnectionQueue (fun _ => 0) (fun _ => true) 0 "a"
        { Native.emptyQueue with connectingPeers := ["a"] } =
      { Native.emptyQueue with connectingPeers := ["a"] } := by
  constructor
  · have h := (C6_admission_queue (fun _ => 0) (fun _ => true) ["a", "b", "c"]
      (by decide) (fun p hp => rfl)).1
    rw [h]
    rfl
  · exact (C6_admission_queue (fun _ => 0) (fun _ => true) [] (by decide)
      (fun p hp => rfl)).2.2.2 0 "a"
      { Native.emptyQueue with connectingPeers := ["a"] } (Or.inr (by simp))





